import Mathlib

/-!
Verification development for the AI-Speech-Evaluator scoring engine
(src/app/scorer.py).  Text is modelled as `List Char`, Python floats as
rationals (`ℚ`).  The regex patterns used by the engine only involve
literal characters, the word-boundary assertion, the character classes
for digits and whitespace with greedy `+` and `*`, and one alternation;
they are embedded via the small pattern language `RPat` below, with a
matcher that reproduces Python's leftmost, greedy, first-alternative
match preference and `re.finditer`'s non-overlapping scan.
-/

namespace SpeechEval

set_option maxRecDepth 40000

/-- Word character in the sense of the regex class used by the code
(`[A-Za-z0-9_]` on the ASCII texts the engine handles). -/
def isWordChar (c : Char) : Bool := c.isAlphanum || c == '_'

/-- Whitespace in the sense of the regex class `\s` (ASCII). -/
def isSpaceChar (c : Char) : Bool := c == ' ' || c == '\t' || c == '\n' || c == '\r'

/-- Character classes occurring in the source patterns. -/
inductive CharCls where
  | digit
  | space
deriving DecidableEq

def clsMatch : CharCls → Char → Bool
  | .digit, c => c.isDigit
  | .space, c => isSpaceChar c

/-- Pattern language covering every regex in scorer.py: literals,
sequencing, alternation, the classes with greedy star, and word
boundaries.  Greedy plus is encoded as class-then-star. -/
inductive RPat where
  | eps : RPat
  | lit : Char → RPat
  | cls : CharCls → RPat
  | seq : RPat → RPat → RPat
  | alt : RPat → RPat → RPat
  | starCls : CharCls → RPat
  | wordB : RPat

def isWordOpt : Option Char → Bool
  | none => false
  | some c => isWordChar c

/-- Greedy zero-or-more of a character class: the returned continuation
states are ordered longest-consumption first, matching backtracking
preference.  The first component of each state is the last consumed
character (context for later word-boundary tests). -/
def starClsRun (k : CharCls) : Option Char → List Char → List (Option Char × List Char)
  | prev, [] => [(prev, [])]
  | prev, c :: rest =>
    if clsMatch k c then starClsRun k (some c) rest ++ [(prev, c :: rest)]
    else [(prev, c :: rest)]

/-- All ways a pattern can match a prefix of `cs` (given the character
just before `cs`, for boundary tests), in Python preference order. -/
def mrun : RPat → Option Char → List Char → List (Option Char × List Char)
  | .eps, prev, cs => [(prev, cs)]
  | .lit _, _, [] => []
  | .lit a, _, c :: rest => if c == a then [(some c, rest)] else []
  | .cls _, _, [] => []
  | .cls k, _, c :: rest => if clsMatch k c then [(some c, rest)] else []
  | .seq p q, prev, cs => (mrun p prev cs).flatMap fun s => mrun q s.1 s.2
  | .alt p q, prev, cs => mrun p prev cs ++ mrun q prev cs
  | .starCls k, prev, cs => starClsRun k prev cs
  | .wordB, prev, cs => if isWordOpt prev != isWordOpt cs.head? then [(prev, cs)] else []

/-- Does the pattern match starting exactly at the head of `cs`? -/
def matchHere (p : RPat) (prev : Option Char) (cs : List Char) : Bool :=
  !(mrun p prev cs).isEmpty

/-- `re.search` from a given context: does the pattern match at some
position of `cs`? -/
def searchFrom (p : RPat) : Option Char → List Char → Bool
  | prev, [] => matchHere p prev []
  | prev, c :: rest => matchHere p prev (c :: rest) || searchFrom p (some c) rest

/-- `re.search(p, cs) is not None`. -/
def reSearch (p : RPat) (cs : List Char) : Bool := searchFrom p none cs

/-- Length consumed by the preferred match at the current position, if any. -/
def matchLenAt (p : RPat) (prev : Option Char) (cs : List Char) : Option Nat :=
  match mrun p prev cs with
  | [] => none
  | s :: _ => some (cs.length - s.2.length)

/-- Non-overlapping left-to-right scan collecting match start positions,
as `re.finditer` / `re.findall` do: after a match of length `len` the
scan resumes `max len 1` characters further.  `fuel` bounds the
recursion; callers pass `cs.length + 1`, which is never exhausted since
every step consumes at least one character. -/
def scanStarts (m : Option Char → List Char → Option Nat) :
    Nat → Nat → Option Char → List Char → List Nat
  | 0, _, _, _ => []
  | fuel + 1, i, prev, cs =>
    match m prev cs with
    | some len =>
      if len = 0 then
        match cs with
        | [] => [i]
        | c :: rest => i :: scanStarts m fuel (i + 1) (some c) rest
      else i :: scanStarts m fuel (i + len) (cs.take len).getLast? (cs.drop len)
    | none =>
      match cs with
      | [] => []
      | c :: rest => scanStarts m fuel (i + 1) (some c) rest

/-- Start offsets of the non-overlapping matches of `p` in `cs`. -/
def finditerStarts (p : RPat) (cs : List Char) : List Nat :=
  scanStarts (matchLenAt p) (cs.length + 1) 0 none cs

/-- Number of matches, as `len(re.findall(p, cs))` for the patterns used
here (none of which contain groups other than the one non-capturing-use
alternation). -/
def findallCount (p : RPat) (cs : List Char) : Nat := (finditerStarts p cs).length

-- Pattern constructors ------------------------------------------------

def rlitL : List Char → RPat
  | [] => .eps
  | c :: cs => .seq (.lit c) (rlitL cs)

/-- A plain-text pattern (no metacharacters): matches as a literal. -/
def rlit (s : String) : RPat := rlitL s.toList

/-- The apostrophe character (several source patterns contain it). -/
def apos : Char := Char.ofNat 39

def digitPlus : RPat := .seq (.cls .digit) (.starCls .digit)

def spaceStar : RPat := .starCls .space

def spacePlus : RPat := .seq (.cls .space) (.starCls .space)

/-- Wrap a pattern in word boundaries on both sides. -/
def bw (p : RPat) : RPat := .seq .wordB (.seq p .wordB)

-- CONSTANTS & CONFIGURATION (scorer.py lines 26-52) -------------------

/-- KEYWORD_MAP: abstract concepts to acceptable phrases/regex.  Plain
entries are literal substrings (no metacharacters), the others are
transcribed pattern by pattern. -/
def KEYWORD_MAP : List (String × List RPat) := [
  ("name", [rlit "name is", rlit "my name is", rlit "i am", rlit "myself",
            bw (rlit "this is"), bw (rlit "my name")]),
  ("age", [rlit "age", rlit "years old",
           bw (.seq digitPlus (.seq spaceStar (.seq (rlit "years")
                 (.seq spaceStar (rlit "old"))))),
           bw (.seq (rlit "i am ") digitPlus),
           bw (.seq (rlitL (['I', apos, 'm', ' '])) digitPlus)]),
  ("school", [rlit "school", rlit "student of", rlit "study in",
              rlit "studying in", rlit "class of"]),
  ("class", [rlit "class", rlit "grade", rlit "standard",
             bw (rlit "8th"), bw (rlit "9th"), bw (rlit "10th")]),
  ("family", [rlit "family", rlit "parents", rlit "mother", rlit "father",
              rlit "brother", rlit "sister",
              bw (.seq (rlit "we ") (.seq (.alt (rlit "are") (rlitL ([apos, 'r', 'e'])))
                    (.seq (rlit " ") (.seq digitPlus (rlit " people")))))]),
  ("hobby", [rlit "hobby", rlit "hobbies", rlit "like to", rlit "love to",
             rlit "enjoy", rlit "playing", rlit "play"]),
  ("interest", [rlit "interest", rlit "passionate", rlit "fan of", rlit "interested in"]),
  ("goal", [rlit "goal", rlit "ambition", rlit "dream", rlit "want to be", rlit "i want to"]),
  ("fun_fact", [rlit "fun fact", rlit "once", rlit "secret",
                rlitL (['d', 'o', 'n', apos, 't', ' ', 'k', 'n', 'o', 'w']),
                rlit "dont know", rlit "surprising"])]

/-- FILLER_WORDS (a Python set; iteration order only affects the
diagnostic list, not any score, so a fixed list is used). -/
def FILLER_WORDS : List String :=
  ["um", "uh", "like", "you know", "so", "actually", "basically", "right",
   "i mean", "well", "kinda", "sort of", "okay", "hmm", "ah", "erm", "huh"]

def SALUTATIONS_excellent : List RPat :=
  [rlit "i am excited to introduce", rlit "feeling great",
   rlitL (['i', apos, 'm', ' ', 'e', 'x', 'c', 'i', 't', 'e', 'd']),
   rlit "i am excited"]

def SALUTATIONS_good : List RPat :=
  [rlit "good morning", rlit "good afternoon", rlit "good evening",
   rlit "good day", rlit "hello everyone"]

def SALUTATIONS_normal : List RPat := [bw (rlit "hi"), bw (rlit "hello")]

/-- Closing-phrase patterns of the flow analyzer's "end" group. -/
def END_PATTERNS : List RPat :=
  [rlit "thank you", rlit "thanks", rlit "thankyou",
   rlitL (['t', 'h', 'a', 't', apos, 's', ' ', 'a', 'l', 'l'])]

-- HELPER FUNCTIONS (scorer.py lines 54-66) ----------------------------

/-- `_lower_and_clean`: normalize text to lowercase (as a char list). -/
def lower_and_clean (s : String) : List Char := s.toList.map Char.toLower

/-- `_find_any_pattern`: True if any pattern matches the lowercased text. -/
def find_any_pattern (text : List Char) (patterns : List RPat) : Bool :=
  let text_l := text.map Char.toLower
  patterns.any fun p => reSearch p text_l

-- SCORING FUNCTIONS ---------------------------------------------------

/-- `detect_salutation_level`: 5 Excellent, 4 Good, 2 Normal, 0 none
(first tier with a matching pattern wins). -/
def detect_salutation_level (text : String) : ℚ × String :=
  let t := lower_and_clean text
  if SALUTATIONS_excellent.any fun p => reSearch p t then (5, "Excellent")
  else if SALUTATIONS_good.any fun p => reSearch p t then (4, "Good")
  else if SALUTATIONS_normal.any fun p => reSearch p t then (2, "Normal")
  else (0, "No salutation detected")

def mustConcepts : List String := ["name", "age", "school", "class", "family", "hobby"]

def optionalConcepts : List String := ["goal", "fun_fact", "interest"]

/-- `KEYWORD_MAP.get(k, [])`. -/
def conceptPatterns (k : String) : List RPat :=
  match KEYWORD_MAP.find? fun e => e.1 == k with
  | some e => e.2
  | none => []

structure KwDetails where
  found_must : List String
  found_optional : List String
  raw_score : ℚ

/-- `keyword_presence_score`: mandatory concepts contribute
proportionally up to 20, optional up to 10, clamped at `weight`. -/
def keyword_presence_score (text : String) (weight : ℚ) : ℚ × KwDetails :=
  let t := lower_and_clean text
  let found_must_list := mustConcepts.filter fun k => find_any_pattern t (conceptPatterns k)
  let found_opt_list := optionalConcepts.filter fun k => find_any_pattern t (conceptPatterns k)
  let found_must : ℚ := found_must_list.length
  let found_opt : ℚ := found_opt_list.length
  let must_score : ℚ := (found_must / (mustConcepts.length : ℚ)) * 20
  let opt_score : ℚ := (found_opt / (optionalConcepts.length : ℚ)) * 10
  let raw_score := must_score + opt_score
  (min raw_score weight, ⟨found_must_list, found_opt_list, raw_score⟩)

-- Flow analyzer -------------------------------------------------------

def salGroupPatterns : List RPat :=
  SALUTATIONS_good ++ SALUTATIONS_normal ++ SALUTATIONS_excellent

def basicGroupPatterns : List RPat :=
  conceptPatterns "name" ++ conceptPatterns "age" ++
  conceptPatterns "class" ++ conceptPatterns "school"

def addGroupPatterns : List RPat :=
  conceptPatterns "hobby" ++ conceptPatterns "interest" ++
  conceptPatterns "goal" ++ conceptPatterns "fun_fact"

/-- All match start offsets of all the group's patterns in the text. -/
def groupIndices (patterns : List RPat) (t : List Char) : List Nat :=
  patterns.flatMap fun p => finditerStarts p t

/-- Average character offset of the group's matches; `none` when the
group has no match. -/
def avgPos (patterns : List RPat) (t : List Char) : Option ℚ :=
  let indices := groupIndices patterns t
  if indices.isEmpty then none
  else some (((indices.sum : ℕ) : ℚ) / (indices.length : ℚ))

/-- `flow_score`: checks that average positions follow
salutation < basic < additional < closing over the six ordered pairs,
with the short-text fallback of the source. -/
def flow_score (text : String) (weight : ℚ) : ℚ :=
  let t := lower_and_clean text
  let pSal := avgPos salGroupPatterns t
  let pBasic := avgPos basicGroupPatterns t
  let pAdd := avgPos addGroupPatterns t
  let pEnd := avgPos END_PATTERNS t
  let pairs := [(pSal, pBasic), (pSal, pAdd), (pSal, pEnd),
                (pBasic, pAdd), (pBasic, pEnd), (pAdd, pEnd)]
  let total_pairs := pairs.countP fun pr => pr.1.isSome && pr.2.isSome
  let correct_pairs := pairs.countP fun pr =>
    match pr.1, pr.2 with
    | some a, some b => decide (a < b)
    | _, _ => false
  if total_pairs = 0 then
    if pBasic.isSome then 3 else 0
  else ((correct_pairs : ℚ) / (total_pairs : ℚ)) * weight

-- Speech rate ---------------------------------------------------------

/-- Maximal runs of word characters, as `re.findall(r"\w+", text)`. -/
def wordTokensGo : List Char → List Char → List (List Char)
  | [], acc => if acc.isEmpty then [] else [acc.reverse]
  | c :: rest, acc =>
    if isWordChar c then wordTokensGo rest (c :: acc)
    else if acc.isEmpty then wordTokensGo rest []
    else acc.reverse :: wordTokensGo rest []

def wordTokens (cs : List Char) : List (List Char) := wordTokensGo cs []

def wordCount (cs : List Char) : Nat := (wordTokens cs).length

/-- Duration actually used: zero/negative durations fall back to 52 s. -/
def effectiveDuration (duration_seconds : ℚ) : ℚ :=
  if duration_seconds ≤ 0 then 52 else duration_seconds

/-- Words per minute as computed by `speech_rate_score`. -/
def wpmOf (text : String) (duration_seconds : ℚ) : ℚ :=
  (wordCount text.toList : ℚ) / (effectiveDuration duration_seconds / 60)

/-- `speech_rate_score` banding: 111-140 → 10; 81-110 or 141-160 → 6;
otherwise 2 (the `weight` argument is unused by the source as well). -/
def speech_rate_score (text : String) (duration_seconds : ℚ) (weight : ℚ) : ℚ :=
  let wpm := wpmOf text duration_seconds
  if 111 ≤ wpm ∧ wpm ≤ 140 then 10
  else if (81 ≤ wpm ∧ wpm < 111) ∨ (141 ≤ wpm ∧ wpm ≤ 160) then 6
  else 2

-- Grammar -------------------------------------------------------------

def isSentSep (c : Char) : Bool := c == '.' || c == '!' || c == '?'

def splitOnSeps : List Char → List Char → List (List Char)
  | [], acc => [acc.reverse]
  | c :: rest, acc =>
    if isSentSep c then acc.reverse :: splitOnSeps rest []
    else splitOnSeps rest (c :: acc)

/-- Python `str.strip()`. -/
def stripChars (l : List Char) : List Char :=
  ((l.dropWhile isSpaceChar).reverse.dropWhile isSpaceChar).reverse

/-- Sentences: split on `[.!?]` runs, strip, drop empties.  (Splitting
on single separators instead of runs only inserts empty segments, which
the same strip-and-filter removes.) -/
def sentencesOf (cs : List Char) : List (List Char) :=
  ((splitOnSeps cs []).map stripChars).filter fun s => !s.isEmpty

/-- The pattern `\s+i\s+`. -/
def spaceIPat : RPat := .seq spacePlus (.seq (.lit 'i') spacePlus)

/-- Preferred match of `\b(\w+)\s+\1\b` at the current position.  The
greedy `\w+` capture must be the whole word-character run (a shorter
capture leaves a word character where `\s+` is required), then maximal
whitespace, then the same run again followed by a word boundary. -/
def repWordAt (prev : Option Char) (cs : List Char) : Option Nat :=
  if isWordOpt prev then none
  else
    let w := cs.takeWhile isWordChar
    if w.isEmpty then none
    else
      let r1 := cs.drop w.length
      let sp := r1.takeWhile isSpaceChar
      if sp.isEmpty then none
      else
        let r2 := r1.drop sp.length
        if r2.take w.length = w && !isWordOpt (r2.drop w.length).head? then
          some (w.length + sp.length + w.length)
        else none

/-- `len(re.findall(r"\b(\w+)\s+\1\b", cs))`. -/
def repeatedWordCount (cs : List Char) : Nat :=
  (scanStarts repWordAt (cs.length + 1) 0 none cs).length

/-- Detected error count of `grammar_score`: lowercase sentence starts,
standalone lowercase `i`, immediately repeated words. -/
def grammarErrors (text : String) : Nat :=
  let sentences := sentencesOf text.toList
  let errCap := (sentences.filter fun s =>
    match s.head? with
    | some c => c.isLower
    | none => false).length
  let errI := findallCount spaceIPat (' ' :: text.toList ++ [' '])
  let errRep := repeatedWordCount (text.toList.map Char.toLower)
  errCap + errI + errRep

/-- `grammar_score`: errors per 100 words mapped through
`(1 - min(e/10, 1)) * weight`. -/
def grammar_score (text : String) (weight : ℚ) : ℚ :=
  let sentences := sentencesOf text.toList
  let num_sentences := max 1 sentences.length
  let errors := grammarErrors text
  let estimated_words : Nat :=
    if wordCount text.toList = 0 then num_sentences * 10 else wordCount text.toList
  let errors_per_100 : ℚ := ((errors : ℚ) / (estimated_words : ℚ)) * 100
  let score_ratio : ℚ := 1 - min (errors_per_100 / 10) 1
  score_ratio * weight

-- Vocabulary ----------------------------------------------------------

/-- `vocab_ttr_score`: type-token ratio with banded scoring. -/
def vocab_ttr_score (text : String) (weight : ℚ) : ℚ :=
  let words := wordTokens (lower_and_clean text)
  let total := words.length
  if total = 0 then 0
  else
    let distinct := words.dedup.length
    let ttr : ℚ := (distinct : ℚ) / (total : ℚ)
    if ttr ≥ 9 / 10 then weight
    else if ttr ≥ 7 / 10 then 8 / 10 * weight
    else if ttr ≥ 5 / 10 then 6 / 10 * weight
    else if ttr ≥ 3 / 10 then 4 / 10 * weight
    else 2 / 10 * weight

-- Filler words --------------------------------------------------------

/-- Whole-word occurrences of one filler in the lowercased text. -/
def fillerCountOf (t : List Char) (filler : String) : Nat :=
  findallCount (bw (rlit filler)) t

def totalFillerCount (t : List Char) : Nat :=
  (FILLER_WORDS.map fun f => fillerCountOf t f).sum

/-- Filler occurrence percentage of `filler_word_score`. -/
def fillerRate (text : String) : ℚ :=
  let t := lower_and_clean text
  ((totalFillerCount t : ℚ) / (wordCount t : ℚ)) * 100

/-- `filler_word_score`: banded on the filler rate; 0 on wordless text. -/
def filler_word_score (text : String) (weight : ℚ) : ℚ :=
  let t := lower_and_clean text
  let total_words := wordCount t
  if total_words = 0 then 0
  else
    let rate := fillerRate text
    if rate ≤ 3 then weight
    else if rate ≤ 6 then 12
    else if rate ≤ 9 then 9
    else if rate ≤ 12 then 6
    else 3

-- Sentiment -----------------------------------------------------------

def posWords : List String :=
  ["excited", "love", "great", "good", "happy", "enjoy", "confident", "passion", "thank"]

def negWords : List String := ["hate", "bad", "boring", "sad", "nervous"]

/-- The heuristic fallback compound used when the VADER analyzer is
unavailable: one of exactly 0.6, -0.3, 0. -/
def heuristicCompound (text : String) : ℚ :=
  let tokens := (wordTokens (lower_and_clean text)).dedup
  let pos_hits := (posWords.filter fun w => tokens.contains w.toList).length
  let neg_hits := (negWords.filter fun w => tokens.contains w.toList).length
  if pos_hits > neg_hits then 6 / 10
  else if neg_hits > pos_hits then -3 / 10
  else 0

/-- The module-level `_vader` analyzer is external; a backend is any
function producing a compound score, `none` selecting the source's
heuristic fallback. -/
def compoundOf (vader : Option (String → ℚ)) (text : String) : ℚ :=
  match vader with
  | some f => f text
  | none => heuristicCompound text

/-- `sentiment_score`: bands on the compound polarity. -/
def sentiment_score (vader : Option (String → ℚ)) (text : String) (weight : ℚ) : ℚ :=
  let compound := compoundOf vader text
  if compound ≥ 5 / 10 then weight
  else if compound ≥ 3 / 10 then 12
  else if compound ≥ 0 then 9
  else if compound ≥ -(2 / 10) then 6
  else 3

-- MAIN ENTRY POINT ----------------------------------------------------

structure Criterion where
  name : String
  score : ℚ
  weight : ℚ

/-- A row of the rubric spreadsheet as produced by `rubric_loader`. -/
structure RubricRow where
  criterion : String
  description : String
  weight : ℚ

/-- `evaluate_transcript`: the transcript argument is `none` for a
non-string (or missing) value and `some s` for a string, mirroring the
`not transcript or not isinstance(transcript, str)` guard; the
diagnostic `details` dicts are not modelled (no score depends on them). -/
def evaluate_transcript (vader : Option (String → ℚ)) (transcript : Option String)
    (rubric_df : Option (List RubricRow)) (duration_seconds : ℚ) : ℚ × List Criterion :=
  match transcript with
  | none => (0, [])
  | some text =>
    if text.isEmpty then (0, [])
    else
      let criteria_list : List Criterion := [
        ⟨"Salutation Level", (detect_salutation_level text).1, 5⟩,
        ⟨"Keyword Presence", (keyword_presence_score text 30).1, 30⟩,
        ⟨"Flow (Order)", flow_score text 5, 5⟩,
        ⟨"Speech Rate (WPM)", speech_rate_score text duration_seconds 10, 10⟩,
        ⟨"Grammar Errors", grammar_score text 10, 10⟩,
        ⟨"Vocabulary (TTR)", vocab_ttr_score text 10, 10⟩,
        ⟨"Filler Word Rate", filler_word_score text 15, 15⟩,
        ⟨"Sentiment", sentiment_score vader text 15, 15⟩]
      let total_score := (criteria_list.map Criterion.score).sum
      (total_score, criteria_list)

/-- The documented sample introduction from scorer.py. -/
def sample_text : String :=
  "Hello everyone, I am excited to introduce myself. " ++
  "My name is Rahul and I study in class 10 at Delhi Public School. " ++
  "I am 15 years old and live with my family which includes my parents and younger sister. " ++
  "My hobby is playing chess and I have a strong interest in coding. " ++
  "A fun fact about me is that I can solve a cube in under a minute. " ++
  "My goal is to become a software engineer. Thank you for listening."

-- Spec-side definitions (written from the specification wording, to be
-- compared with the source-translated functions above) -----------------

/-- Words-per-minute as the spec words it: word_count / (duration/60),
substituting 52 seconds whenever the duration is zero or negative. -/
def wpmSpec (text : String) (d : ℚ) : ℚ :=
  if d ≤ 0 then (wordCount text.toList : ℚ) / (52 / 60)
  else (wordCount text.toList : ℚ) / (d / 60)

/-- Speech-rate banding as the spec words it: 111-140 wpm → 10; 81-110
or 141-160 wpm → 6; otherwise → 2 (band edges at integer granularity,
the 6-band covering up to the start of the 10-band). -/
def speechBandSpec (wpm : ℚ) : ℚ :=
  if 111 ≤ wpm ∧ wpm ≤ 140 then 10
  else if (81 ≤ wpm ∧ wpm < 111) ∨ (141 ≤ wpm ∧ wpm ≤ 160) then 6
  else 2

/-- Filler-rate banding as the spec words it: ≤3% → 15; ≤6% → 12;
≤9% → 9; ≤12% → 6; above 12% → 3. -/
def fillerBandSpec (rate : ℚ) : ℚ :=
  if rate ≤ 3 then 15
  else if rate ≤ 6 then 12
  else if rate ≤ 9 then 9
  else if rate ≤ 12 then 6
  else 3

/-- The four flow-group anchors in narrative order: salutation, basic
info, additional info, closing; each the average character offset of all
matches of all the group's patterns, undefined when the group has no
match. -/
def flowAnchors (t : List Char) : List (Option ℚ) :=
  [avgPos salGroupPatterns t, avgPos basicGroupPatterns t,
   avgPos addGroupPatterns t, avgPos END_PATTERNS t]

/-- The six ordered pairs among the four groups. -/
def flowPairIdx : List (Nat × Nat) := [(0, 1), (0, 2), (0, 3), (1, 2), (1, 3), (2, 3)]

/-- Number of pairs with both positions defined. -/
def evaluableCount (ps : List (Option ℚ)) : Nat :=
  flowPairIdx.countP fun ij => (ps.getD ij.1 none).isSome && (ps.getD ij.2 none).isSome

/-- Number of evaluable pairs where the earlier group's average offset
is strictly smaller. -/
def correctCount (ps : List (Option ℚ)) : Nat :=
  flowPairIdx.countP fun ij =>
    match ps.getD ij.1 none, ps.getD ij.2 none with
    | some a, some b => decide (a < b)
    | _, _ => false

/-- Flow score as the spec words it: (correct_pairs / evaluable_pairs) * 5,
falling back to 3.0 when no pair is evaluable and the basic-info group
has a match, else 0.0. -/
def flowSpec (text : String) : ℚ :=
  let ps := flowAnchors (lower_and_clean text)
  let ev := evaluableCount ps
  if ev = 0 then (if (ps.getD 1 none).isSome then 3 else 0)
  else ((correctCount ps : ℚ) / (ev : ℚ)) * 5

-- Score bound lemmas --------------------------------------------------

theorem countP_imp_le {α : Type} (l : List α) (p q : α → Bool)
    (h : ∀ a, p a = true → q a = true) : l.countP p ≤ l.countP q := by
  induction l with
  | nil => simp
  | cons a l ih =>
    simp only [List.countP_cons]
    by_cases hp : p a = true
    · rw [if_pos hp, if_pos (h a hp)]; omega
    · rw [if_neg hp]; split <;> omega

theorem sal_bounds (t : String) :
    0 ≤ (detect_salutation_level t).1 ∧ (detect_salutation_level t).1 ≤ 5 := by
  simp only [detect_salutation_level]
  split_ifs <;> norm_num

theorem kw_bounds (t : String) :
    0 ≤ (keyword_presence_score t 30).1 ∧ (keyword_presence_score t 30).1 ≤ 30 := by
  simp only [keyword_presence_score]
  constructor
  · apply le_min _ (by norm_num)
    positivity
  · exact min_le_right _ _

theorem flow_bounds (t : String) : 0 ≤ flow_score t 5 ∧ flow_score t 5 ≤ 5 := by
  simp only [flow_score]
  set pairs := [(avgPos salGroupPatterns (lower_and_clean t),
                 avgPos basicGroupPatterns (lower_and_clean t)),
                (avgPos salGroupPatterns (lower_and_clean t),
                 avgPos addGroupPatterns (lower_and_clean t)),
                (avgPos salGroupPatterns (lower_and_clean t),
                 avgPos END_PATTERNS (lower_and_clean t)),
                (avgPos basicGroupPatterns (lower_and_clean t),
                 avgPos addGroupPatterns (lower_and_clean t)),
                (avgPos basicGroupPatterns (lower_and_clean t),
                 avgPos END_PATTERNS (lower_and_clean t)),
                (avgPos addGroupPatterns (lower_and_clean t),
                 avgPos END_PATTERNS (lower_and_clean t))] with hpairs
  have hmono : pairs.countP (fun pr =>
      match pr.1, pr.2 with
      | some a, some b => decide (a < b)
      | _, _ => false) ≤ pairs.countP fun pr => pr.1.isSome && pr.2.isSome := by
    apply countP_imp_le
    intro a ha
    match h1 : a.1, h2 : a.2 with
    | some x, some y => simp
    | some x, none => simp [h1, h2] at ha
    | none, some y => simp [h1, h2] at ha
    | none, none => simp [h1, h2] at ha
  split_ifs with h0 hb
  · norm_num
  · norm_num
  · have hpos : (0 : ℚ) < (pairs.countP fun pr => pr.1.isSome && pr.2.isSome : ℕ) := by
      have : 0 < pairs.countP fun pr => pr.1.isSome && pr.2.isSome := Nat.pos_of_ne_zero h0
      exact_mod_cast this
    constructor
    · positivity
    · have hle : ((pairs.countP fun pr =>
          match pr.1, pr.2 with
          | some a, some b => decide (a < b)
          | _, _ => false : ℕ) : ℚ) ≤
          ((pairs.countP fun pr => pr.1.isSome && pr.2.isSome : ℕ) : ℚ) := by
        exact_mod_cast hmono
      rw [div_mul_eq_mul_div, div_le_iff₀ hpos]
      linarith

theorem speech_bounds (t : String) (d : ℚ) :
    2 ≤ speech_rate_score t d 10 ∧ speech_rate_score t d 10 ≤ 10 := by
  simp only [speech_rate_score]
  split_ifs <;> norm_num

theorem grammar_bounds (t : String) :
    0 ≤ grammar_score t 10 ∧ grammar_score t 10 ≤ 10 := by
  simp only [grammar_score]
  have h1 : (0 : ℚ) ≤ ((grammarErrors t : ℚ) /
      ((if wordCount t.toList = 0 then max 1 (sentencesOf t.toList).length * 10
        else wordCount t.toList : ℕ) : ℚ)) * 100 / 10 := by positivity
  constructor
  · have := min_le_right (((grammarErrors t : ℚ) /
      ((if wordCount t.toList = 0 then max 1 (sentencesOf t.toList).length * 10
        else wordCount t.toList : ℕ) : ℚ)) * 100 / 10) 1
    nlinarith
  · have := le_min h1 (by norm_num : (0 : ℚ) ≤ 1)
    nlinarith

theorem vocab_bounds (t : String) :
    0 ≤ vocab_ttr_score t 10 ∧ vocab_ttr_score t 10 ≤ 10 := by
  simp only [vocab_ttr_score]
  split_ifs <;> norm_num

theorem filler_bounds (t : String) :
    0 ≤ filler_word_score t 15 ∧ filler_word_score t 15 ≤ 15 := by
  simp only [filler_word_score]
  split_ifs <;> norm_num

theorem sentiment_bounds (v : Option (String → ℚ)) (t : String) :
    3 ≤ sentiment_score v t 15 ∧ sentiment_score v t 15 ≤ 15 := by
  simp only [sentiment_score]
  split_ifs <;> norm_num

-- Average-position computation lemmas ---------------------------------

theorem avgPos_none (G : List RPat) (t : List Char)
    (h : groupIndices G t = []) : avgPos G t = none := by
  simp [avgPos, h]

theorem avgPos_eq (G : List RPat) (t : List Char) (s n : ℕ)
    (hs : (groupIndices G t).sum = s) (hn : (groupIndices G t).length = n)
    (h0 : n ≠ 0) : avgPos G t = some ((s : ℚ) / (n : ℚ)) := by
  have hne : (groupIndices G t).isEmpty = false := by
    rw [List.isEmpty_eq_false]
    intro hh
    rw [hh] at hn
    simp at hn
    exact h0 hn.symm
  simp only [avgPos, hne, Bool.false_eq_true, if_false]
  rw [hs, hn]

-- Claim theorems ------------------------------------------------------

/-- C1: for every input (any sentiment backend, transcript, rubric and
duration), the total returned by evaluate_transcript equals the sum of
the score fields of the criterion records it returns, and this total
lies in [0, 100]. -/
theorem C1_total_is_sum_of_scores_and_bounded (v : Option (String → ℚ))
    (tr : Option String) (r : Option (List RubricRow)) (d : ℚ) :
    (evaluate_transcript v tr r d).1 =
      ((evaluate_transcript v tr r d).2.map Criterion.score).sum ∧
    0 ≤ (evaluate_transcript v tr r d).1 ∧ (evaluate_transcript v tr r d).1 ≤ 100 := by
  match tr with
  | none => simp [evaluate_transcript]
  | some t =>
    by_cases h : t.isEmpty = true
    · simp [evaluate_transcript, h]
    · rw [Bool.not_eq_true] at h
      have h1 : (evaluate_transcript v (some t) r d).1 =
          ((evaluate_transcript v (some t) r d).2.map Criterion.score).sum := by
        simp only [evaluate_transcript, h, Bool.false_eq_true, if_false]
      refine ⟨h1, ?_, ?_⟩ <;>
      · simp only [evaluate_transcript, h, Bool.false_eq_true, if_false,
          List.map_cons, List.map_nil, List.sum_cons, List.sum_nil]
        linarith [sal_bounds t, kw_bounds t, flow_bounds t, speech_bounds t d,
          grammar_bounds t, vocab_bounds t, filler_bounds t, sentiment_bounds v t]

/-- C2: for every non-empty string transcript (and any backend, rubric
and duration), evaluate_transcript returns exactly eight criterion
records whose weights are 5, 30, 5, 10, 10, 10, 15, 15, summing to 100,
and every record satisfies 0 ≤ score ≤ weight. -/
theorem C2_eight_records_fixed_weights_score_in_range (v : Option (String → ℚ))
    (r : Option (List RubricRow)) (d : ℚ) (t : String) (h : t ≠ "") :
    (evaluate_transcript v (some t) r d).2.length = 8 ∧
    (evaluate_transcript v (some t) r d).2.map Criterion.weight =
      [5, 30, 5, 10, 10, 10, 15, 15] ∧
    ((evaluate_transcript v (some t) r d).2.map Criterion.weight).sum = 100 ∧
    ∀ c ∈ (evaluate_transcript v (some t) r d).2, 0 ≤ c.score ∧ c.score ≤ c.weight := by
  have hb : t.isEmpty = false := by
    rw [Bool.eq_false_iff]
    intro hc
    exact h ((String.isEmpty_iff t).mp hc)
  simp only [evaluate_transcript, hb, Bool.false_eq_true, if_false]
  refine ⟨rfl, rfl, by norm_num, ?_⟩
  intro c hc
  simp only [List.mem_cons, List.not_mem_nil, or_false] at hc
  rcases hc with rfl | rfl | rfl | rfl | rfl | rfl | rfl | rfl
  · exact sal_bounds t
  · exact kw_bounds t
  · exact flow_bounds t
  · exact ⟨by linarith [(speech_bounds t d).1], (speech_bounds t d).2⟩
  · exact grammar_bounds t
  · exact vocab_bounds t
  · exact filler_bounds t
  · exact ⟨by linarith [(sentiment_bounds v t).1], (sentiment_bounds v t).2⟩

/-- C2 witness: the theorem instantiated at the transcript "hi" with the
heuristic backend, no rubric and the default duration. -/
theorem C2_witness :
    (evaluate_transcript none (some "hi") none 52).2.length = 8 ∧
    (evaluate_transcript none (some "hi") none 52).2.map Criterion.weight =
      [5, 30, 5, 10, 10, 10, 15, 15] ∧
    ((evaluate_transcript none (some "hi") none 52).2.map Criterion.weight).sum = 100 ∧
    ∀ c ∈ (evaluate_transcript none (some "hi") none 52).2,
      0 ≤ c.score ∧ c.score ≤ c.weight :=
  C2_eight_records_fixed_weights_score_in_range none none 52 "hi" (by decide)

/-- C3: a missing/non-string transcript (modelled as `none`) and the
empty-string transcript both yield total 0 and an empty criterion list,
as a normal return value of the (total) evaluation function. -/
theorem C3_empty_or_nonstring_short_circuit (v : Option (String → ℚ))
    (r : Option (List RubricRow)) (d : ℚ) :
    evaluate_transcript v none r d = (0, []) ∧
    evaluate_transcript v (some "") r d = (0, []) := by
  constructor
  · rfl
  · have he : ("" : String).isEmpty = true := by decide
    simp [evaluate_transcript, he]

/-- C4: the speech-rate analyzer computes wpm = word_count/(duration/60)
with 52 substituted for zero or negative durations, bands it as
111-140 → 10, 81-110 or 141-160 → 6, otherwise 2, and on a text of
exactly 4 word tokens with duration 10 it yields wpm 24 and score 2. -/
theorem C4_speech_rate_formula_bands_and_literal :
    (∀ (text : String) (d : ℚ), wpmOf text d = wpmSpec text d) ∧
    (∀ (text : String) (d : ℚ),
      speech_rate_score text d 10 = speechBandSpec (wpmOf text d)) ∧
    wordCount ("one two three four").toList = 4 ∧
    wpmOf "one two three four" 10 = 24 ∧
    speech_rate_score "one two three four" 10 10 = 2 := by
  have hwc : wordCount ("one two three four").toList = 4 := by decide
  have hwpm : wpmOf "one two three four" 10 = 24 := by
    simp only [wpmOf, effectiveDuration, hwc]
    norm_num
  refine ⟨?_, ?_, hwc, hwpm, ?_⟩
  · intro text d
    simp only [wpmOf, wpmSpec, effectiveDuration]
    split_ifs <;> rfl
  · intro text d
    rfl
  · simp only [speech_rate_score, hwpm]
    norm_num

/-- C5: the filler-word analyzer counts whole-word occurrences of each
filler in the lowercased text, computes rate = count/words*100, bands it
as ≤3 → 15, ≤6 → 12, ≤9 → 9, ≤12 → 6, else 3; "so" has 0 occurrences in
"the software team built the software", and "so so so" has rate 100 and
score 3. -/
theorem C5_filler_rate_bands_and_literals :
    (∀ text : String, fillerRate text =
      ((totalFillerCount (lower_and_clean text) : ℚ) /
        (wordCount (lower_and_clean text) : ℚ)) * 100) ∧
    (∀ text : String, wordCount (lower_and_clean text) ≠ 0 →
      filler_word_score text 15 = fillerBandSpec (fillerRate text)) ∧
    fillerCountOf ("the software team built the software").toList "so" = 0 ∧
    fillerRate "so so so" = 100 ∧
    filler_word_score "so so so" 15 = 3 := by
  have hc3 : totalFillerCount (lower_and_clean "so so so") = 3 := by decide
  have hw3 : wordCount (lower_and_clean "so so so") = 3 := by decide
  have hr : fillerRate "so so so" = 100 := by
    simp only [fillerRate, hc3, hw3]
    norm_num
  refine ⟨fun _ => rfl, ?_, by decide, hr, ?_⟩
  · intro text h
    simp only [filler_word_score, h, if_false, fillerBandSpec]
  · simp only [filler_word_score, hw3, hr]
    norm_num

/-- C5 witness: the banding equation at the concrete transcript
"so so so", whose word count is non-zero. -/
theorem C5_witness :
    filler_word_score "so so so" 15 = fillerBandSpec (fillerRate "so so so") :=
  C5_filler_rate_bands_and_literals.2.1 "so so so" (by decide)

/-- C6: the flow analyzer equals its specification: group anchors are
the average character offsets of all pattern matches (undefined on no
match), the score is (correct pairs / evaluable pairs) * 5 over the six
ordered pairs, and with zero evaluable pairs it falls back to 3 when the
basic-info group matched and 0 otherwise; both fallbacks are reachable. -/
theorem C6_flow_equals_spec_with_fallbacks :
    (∀ text : String, flow_score text 5 = flowSpec text) ∧
    flow_score "my name is x" 5 = 3 ∧
    flow_score "zzz" 5 = 0 := by
  have hbasic : avgPos basicGroupPatterns (lower_and_clean "my name is x") =
      some ((3 : ℚ) / (3 : ℚ)) :=
    avgPos_eq _ _ 3 3 (by decide) (by decide) (by decide)
  have hsal : avgPos salGroupPatterns (lower_and_clean "my name is x") = none :=
    avgPos_none _ _ (by decide)
  have hadd : avgPos addGroupPatterns (lower_and_clean "my name is x") = none :=
    avgPos_none _ _ (by decide)
  have hend : avgPos END_PATTERNS (lower_and_clean "my name is x") = none :=
    avgPos_none _ _ (by decide)
  have hsal2 : avgPos salGroupPatterns (lower_and_clean "zzz") = none :=
    avgPos_none _ _ (by decide)
  have hbasic2 : avgPos basicGroupPatterns (lower_and_clean "zzz") = none :=
    avgPos_none _ _ (by decide)
  have hadd2 : avgPos addGroupPatterns (lower_and_clean "zzz") = none :=
    avgPos_none _ _ (by decide)
  have hend2 : avgPos END_PATTERNS (lower_and_clean "zzz") = none :=
    avgPos_none _ _ (by decide)
  refine ⟨fun text => rfl, ?_, ?_⟩
  · simp only [flow_score, hsal, hbasic, hadd, hend]
    norm_num [List.countP_cons, List.countP_nil]
  · simp only [flow_score, hsal2, hbasic2, hadd2, hend2]
    norm_num [List.countP_cons, List.countP_nil]

-- Sample-text evaluation lemmas (for C8) ------------------------------

theorem sample_salutation : detect_salutation_level sample_text = (5, "Excellent") := by
  have h1 : (SALUTATIONS_excellent.any fun p =>
      reSearch p (lower_and_clean sample_text)) = true := by decide
  simp only [detect_salutation_level, h1, if_true]

theorem sample_found_must : mustConcepts.filter
    (fun k => find_any_pattern (lower_and_clean sample_text) (conceptPatterns k)) =
    mustConcepts := by decide

theorem sample_found_opt : optionalConcepts.filter
    (fun k => find_any_pattern (lower_and_clean sample_text) (conceptPatterns k)) =
    optionalConcepts := by decide

theorem sample_keyword_score : (keyword_presence_score sample_text 30).1 = 30 := by
  simp only [keyword_presence_score, sample_found_must, sample_found_opt]
  norm_num [mustConcepts, optionalConcepts]

theorem sample_keyword_details :
    (keyword_presence_score sample_text 30).2.found_must = mustConcepts ∧
    (keyword_presence_score sample_text 30).2.found_optional = optionalConcepts := by
  constructor <;> simp only [keyword_presence_score, sample_found_must, sample_found_opt]

theorem sample_flow : flow_score sample_text 5 = 5 := by
  have hsal : avgPos salGroupPatterns (lower_and_clean sample_text) =
      some ((32 : ℚ) / (4 : ℚ)) := avgPos_eq _ _ 32 4 (by decide) (by decide) (by decide)
  have hbasic : avgPos basicGroupPatterns (lower_and_clean sample_text) =
      some ((946 : ℚ) / (12 : ℚ)) := avgPos_eq _ _ 946 12 (by decide) (by decide) (by decide)
  have hadd : avgPos addGroupPatterns (lower_and_clean sample_text) =
      some ((1494 : ℚ) / (6 : ℚ)) := avgPos_eq _ _ 1494 6 (by decide) (by decide) (by decide)
  have hend : avgPos END_PATTERNS (lower_and_clean sample_text) =
      some ((377 : ℚ) / (1 : ℚ)) := avgPos_eq _ _ 377 1 (by decide) (by decide) (by decide)
  simp only [flow_score, hsal, hbasic, hadd, hend]
  norm_num [List.countP_cons, List.countP_nil]

theorem sample_word_count : wordCount sample_text.toList = 80 := by decide

theorem sample_speech : speech_rate_score sample_text 30 10 = 6 := by
  have hwpm : wpmOf sample_text 30 = 160 := by
    simp only [wpmOf, effectiveDuration, sample_word_count]
    norm_num
  simp only [speech_rate_score, hwpm]
  norm_num

theorem sample_grammar_errors : grammarErrors sample_text = 0 := by decide

theorem sample_grammar : grammar_score sample_text 10 = 10 := by
  simp only [grammar_score, sample_grammar_errors, sample_word_count]
  norm_num

theorem sample_vocab_counts :
    (wordTokens (lower_and_clean sample_text)).length = 80 ∧
    (wordTokens (lower_and_clean sample_text)).dedup.length = 58 := by
  constructor <;> decide

theorem sample_vocab : vocab_ttr_score sample_text 10 = 8 := by
  simp only [vocab_ttr_score, sample_vocab_counts.1, sample_vocab_counts.2]
  norm_num

theorem sample_filler : filler_word_score sample_text 15 = 15 := by
  have hc : totalFillerCount (lower_and_clean sample_text) = 0 := by decide
  have hw : wordCount (lower_and_clean sample_text) = 80 := by decide
  simp only [filler_word_score, fillerRate, hc, hw]
  norm_num

theorem sample_sentiment : sentiment_score none sample_text 15 = 15 := by
  have hp : (posWords.filter fun w =>
      ((wordTokens (lower_and_clean sample_text)).dedup).contains w.toList).length = 2 := by
    decide
  have hn : (negWords.filter fun w =>
      ((wordTokens (lower_and_clean sample_text)).dedup).contains w.toList).length = 0 := by
    decide
  have hcomp : heuristicCompound sample_text = 6 / 10 := by
    simp only [heuristicCompound, hp, hn]
    norm_num
  simp only [sentiment_score, compoundOf, hcomp]
  norm_num

/-- C8: the documented sample introduction, evaluated with duration 30
seconds (heuristic sentiment backend), scores Salutation 5, Keyword
Presence 30 with all six mandatory and all three optional concepts
found, Flow 5, and total 94, strictly above 85. -/
theorem C8_sample_end_to_end :
    detect_salutation_level sample_text = (5, "Excellent") ∧
    (keyword_presence_score sample_text 30).1 = 30 ∧
    (keyword_presence_score sample_text 30).2.found_must = mustConcepts ∧
    (keyword_presence_score sample_text 30).2.found_optional = optionalConcepts ∧
    flow_score sample_text 5 = 5 ∧
    (evaluate_transcript none (some sample_text) none 30).1 = 94 ∧
    (85 : ℚ) < (evaluate_transcript none (some sample_text) none 30).1 := by
  have hne : sample_text.isEmpty = false := by decide
  have htot : (evaluate_transcript none (some sample_text) none 30).1 = 94 := by
    simp only [evaluate_transcript, hne, Bool.false_eq_true, if_false,
      List.map_cons, List.map_nil, List.sum_cons, List.sum_nil,
      sample_salutation, sample_keyword_score, sample_flow, sample_speech,
      sample_grammar, sample_vocab, sample_filler, sample_sentiment]
    norm_num
  refine ⟨sample_salutation, sample_keyword_score, sample_keyword_details.1,
    sample_keyword_details.2, sample_flow, htot, ?_⟩
  rw [htot]
  norm_num

/-- C9: the rubric argument has no influence on the result of
evaluate_transcript: any two rubric values give identical output. -/
theorem C9_rubric_has_no_influence (v : Option (String → ℚ)) (tr : Option String)
    (d : ℚ) (r1 r2 : Option (List RubricRow)) :
    evaluate_transcript v tr r1 d = evaluate_transcript v tr r2 d := rfl

-- Match-persistence lemmas for C7: extending the text with a suffix
-- whose first character is not a word character preserves every match
-- (the only context a pattern inspects beyond its own characters is the
-- word-boundary test, which at the old end of text keeps its value when
-- the next character is a non-word character). ------------------------

theorem starClsRun_self (k : CharCls) (prev : Option Char) (l : List Char) :
    (prev, l) ∈ starClsRun k prev l := by
  cases l with
  | nil => simp [starClsRun]
  | cons c rest =>
    simp only [starClsRun]
    split_ifs with h
    · exact List.mem_append_right _ (List.mem_singleton_self _)
    · exact List.mem_singleton_self _

theorem starClsRun_append (k : CharCls) (d : List Char) :
    ∀ (prev : Option Char) (cs : List Char) (x : Option Char × List Char),
      x ∈ starClsRun k prev cs →
      (x.1, x.2 ++ d) ∈ starClsRun k prev (cs ++ d) := by
  intro prev cs
  induction cs generalizing prev with
  | nil =>
    intro x hx
    simp only [starClsRun, List.mem_singleton] at hx
    subst hx
    simpa using starClsRun_self k prev d
  | cons c rest ih =>
    intro x hx
    simp only [starClsRun, List.cons_append] at hx ⊢
    split_ifs at hx ⊢ with h
    · rcases List.mem_append.mp hx with h1 | h1
      · exact List.mem_append_left _ (ih (some c) x h1)
      · rw [List.mem_singleton] at h1
        subst h1
        exact List.mem_append_right _ (by simp)
    · rw [List.mem_singleton] at hx
      subst hx
      simp

theorem mrun_append (p : RPat) (d : List Char) (hd : isWordOpt d.head? = false) :
    ∀ (prev : Option Char) (cs : List Char) (x : Option Char × List Char),
      x ∈ mrun p prev cs → (x.1, x.2 ++ d) ∈ mrun p prev (cs ++ d) := by
  induction p with
  | eps =>
    intro prev cs x hx
    simp only [mrun, List.mem_singleton] at hx ⊢
    subst hx
    rfl
  | lit a =>
    intro prev cs x hx
    cases cs with
    | nil => simp [mrun] at hx
    | cons c rest =>
      simp only [mrun] at hx
      split_ifs at hx with h
      · rw [List.mem_singleton] at hx
        subst hx
        simp [mrun, h]
      · simp at hx
  | cls k =>
    intro prev cs x hx
    cases cs with
    | nil => simp [mrun] at hx
    | cons c rest =>
      simp only [mrun] at hx
      split_ifs at hx with h
      · rw [List.mem_singleton] at hx
        subst hx
        simp [mrun, h]
      · simp at hx
  | seq p q ihp ihq =>
    intro prev cs x hx
    simp only [mrun, List.mem_flatMap] at hx ⊢
    obtain ⟨s, hs, hxs⟩ := hx
    exact ⟨(s.1, s.2 ++ d), ihp prev cs s hs, ihq s.1 s.2 x hxs⟩
  | alt p q ihp ihq =>
    intro prev cs x hx
    simp only [mrun, List.mem_append] at hx ⊢
    rcases hx with h | h
    · exact Or.inl (ihp prev cs x h)
    · exact Or.inr (ihq prev cs x h)
  | starCls k =>
    intro prev cs x hx
    exact starClsRun_append k d prev cs x hx
  | wordB =>
    intro prev cs x hx
    have hhead : isWordOpt (cs ++ d).head? = isWordOpt cs.head? := by
      cases cs with
      | nil => simpa using hd
      | cons c rest => rfl
    simp only [mrun, hhead] at hx ⊢
    split_ifs at hx ⊢ with h
    · rw [List.mem_singleton] at hx
      subst hx
      simp
    · simp at hx

theorem matchHere_append (p : RPat) (d : List Char) (hd : isWordOpt d.head? = false)
    (prev : Option Char) (cs : List Char) (h : matchHere p prev cs = true) :
    matchHere p prev (cs ++ d) = true := by
  simp only [matchHere, Bool.not_eq_true', List.isEmpty_eq_false] at h ⊢
  obtain ⟨x, hx⟩ := List.exists_mem_of_ne_nil _ h
  exact List.ne_nil_of_mem (mrun_append p d hd prev cs x hx)

theorem searchFrom_of_matchHere (p : RPat) (prev : Option Char) (cs : List Char)
    (h : matchHere p prev cs = true) : searchFrom p prev cs = true := by
  cases cs <;> simp [searchFrom, h]

theorem searchFrom_append (p : RPat) (d : List Char) (hd : isWordOpt d.head? = false) :
    ∀ (prev : Option Char) (cs : List Char), searchFrom p prev cs = true →
      searchFrom p prev (cs ++ d) = true := by
  intro prev cs
  induction cs generalizing prev with
  | nil =>
    intro h
    rw [List.nil_append]
    exact searchFrom_of_matchHere p prev d (matchHere_append p d hd prev [] h)
  | cons c rest ih =>
    intro h
    simp only [searchFrom, Bool.or_eq_true] at h
    simp only [List.cons_append, searchFrom, Bool.or_eq_true]
    rcases h with h | h
    · exact Or.inl (matchHere_append p d hd prev (c :: rest) h)
    · exact Or.inr (ih (some c) h)

theorem reSearch_append (p : RPat) (cs d : List Char)
    (hd : isWordOpt d.head? = false) (h : reSearch p cs = true) :
    reSearch p (cs ++ d) = true :=
  searchFrom_append p d hd none cs h

theorem find_any_pattern_append (t u : List Char) (ps : List RPat)
    (hd : isWordOpt (u.map Char.toLower).head? = false)
    (h : find_any_pattern t ps = true) : find_any_pattern (t ++ u) ps = true := by
  simp only [find_any_pattern, List.any_eq_true] at h ⊢
  obtain ⟨p, hp, hs⟩ := h
  refine ⟨p, hp, ?_⟩
  rw [List.map_append]
  exact reSearch_append p (t.map Char.toLower) (u.map Char.toLower) hd hs

theorem lower_and_clean_append_sep (t p : String) :
    lower_and_clean (t ++ " " ++ p) =
      lower_and_clean t ++ (' ' :: p.toList.map Char.toLower) := by
  have h1 : (t ++ " " ++ p).toList = t.toList ++ (' ' :: p.toList) := by
    show (t ++ " " ++ p).data = t.data ++ (' ' :: p.data)
    rw [String.data_append, String.data_append, List.append_assoc]
    rfl
  have h2 : Char.toLower ' ' = ' ' := by decide
  simp only [lower_and_clean, h1, List.map_append, List.map_cons, h2]

/-- C7: appending a phrase (with a space separator) that matches a
previously-absent mandatory concept never decreases the Keyword Presence
score; the space separator preserves every existing concept match, so
the found-concept sets only grow. -/
theorem C7_keyword_presence_monotone (t p k : String)
    (hk : k ∈ mustConcepts)
    (habsent : find_any_pattern (lower_and_clean t) (conceptPatterns k) = false)
    (hpresent : find_any_pattern (lower_and_clean (t ++ " " ++ p))
      (conceptPatterns k) = true) :
    (keyword_presence_score t 30).1 ≤ (keyword_presence_score (t ++ " " ++ p) 30).1 := by
  have hmono : ∀ k2 : String,
      find_any_pattern (lower_and_clean t) (conceptPatterns k2) = true →
      find_any_pattern (lower_and_clean (t ++ " " ++ p)) (conceptPatterns k2) = true := by
    intro k2 h
    rw [lower_and_clean_append_sep]
    refine find_any_pattern_append _ (' ' :: p.toList.map Char.toLower) _ ?_ h
    simp only [List.map_cons, List.head?_cons]
    decide
  have hm : (mustConcepts.filter fun k2 =>
      find_any_pattern (lower_and_clean t) (conceptPatterns k2)).length ≤
      (mustConcepts.filter fun k2 =>
        find_any_pattern (lower_and_clean (t ++ " " ++ p)) (conceptPatterns k2)).length := by
    rw [← List.countP_eq_length_filter, ← List.countP_eq_length_filter]
    exact countP_imp_le _ _ _ fun a ha => hmono a ha
  have ho : (optionalConcepts.filter fun k2 =>
      find_any_pattern (lower_and_clean t) (conceptPatterns k2)).length ≤
      (optionalConcepts.filter fun k2 =>
        find_any_pattern (lower_and_clean (t ++ " " ++ p)) (conceptPatterns k2)).length := by
    rw [← List.countP_eq_length_filter, ← List.countP_eq_length_filter]
    exact countP_imp_le _ _ _ fun a ha => hmono a ha
  have hmQ := (Nat.cast_le (α := ℚ)).mpr hm
  have hoQ := (Nat.cast_le (α := ℚ)).mpr ho
  have h6 : (mustConcepts.length : ℚ) = 6 := by norm_num [mustConcepts]
  have h3 : (optionalConcepts.length : ℚ) = 3 := by norm_num [optionalConcepts]
  simp only [keyword_presence_score, h6, h3]
  apply min_le_min _ le_rfl
  linarith

/-- C7 witness: appending the school phrase to a greeting that lacks
every school pattern. -/
theorem C7_witness :
    (keyword_presence_score "hello" 30).1 ≤
      (keyword_presence_score ("hello" ++ " " ++ "my school") 30).1 :=
  C7_keyword_presence_monotone "hello" "my school" "school"
    (by decide) (by decide) (by decide)

/-- C10: for every non-empty string transcript, the speech-rate score is
at least 2, the sentiment score is at least 3, and the returned total is
at least 5 — so a returned total of 0 occurs only for empty or
non-string input. -/
theorem C10_nonempty_total_at_least_five (v : Option (String → ℚ))
    (r : Option (List RubricRow)) (d : ℚ) (t : String) (h : t ≠ "") :
    2 ≤ speech_rate_score t d 10 ∧ 3 ≤ sentiment_score v t 15 ∧
    5 ≤ (evaluate_transcript v (some t) r d).1 := by
  have hb : t.isEmpty = false := by
    rw [Bool.eq_false_iff]
    intro hc
    exact h ((String.isEmpty_iff t).mp hc)
  refine ⟨(speech_bounds t d).1, (sentiment_bounds v t).1, ?_⟩
  simp only [evaluate_transcript, hb, Bool.false_eq_true, if_false,
    List.map_cons, List.map_nil, List.sum_cons, List.sum_nil]
  linarith [sal_bounds t, kw_bounds t, flow_bounds t, speech_bounds t d,
    grammar_bounds t, vocab_bounds t, filler_bounds t, sentiment_bounds v t]

/-- C10 witness: the theorem instantiated at the transcript "hi". -/
theorem C10_witness :
    2 ≤ speech_rate_score "hi" 52 10 ∧ 3 ≤ sentiment_score none "hi" 15 ∧
    5 ≤ (evaluate_transcript none (some "hi") none 52).1 :=
  C10_nonempty_total_at_least_five none none 52 "hi" (by decide)

end SpeechEval



